import Mathlib

/-!
Verification of the x-poster scheduling and publishing engine.

The Python sources are shallowly embedded: pure functions become Lean
functions, file-system state becomes explicit values (a schedule file is a
value of an inductive type; reading and writing it is function application),
datetimes become integer instants, and fallible operations return `Option`
or `Except`.  External library calls (Python `datetime` parsing and
formatting, the HTTP client) are abstracted as explicit parameters whose
contracts are stated in the surrounding comments.
-/

set_option maxRecDepth 40000

namespace XPoster

/-! ## Schedule store (`xposter/watcher.py`)

`ScheduleEntry` is a (job reference path, publish time) pair.  Publish
times are modelled as integer instants (`Int`): the Python code only ever
compares them (`<=`, `>`, sort key) and serialises them through
`datetime.isoformat` / `utils.parse_iso_datetime`, so a linearly ordered
carrier with an injective string codec is a faithful abstraction. -/

structure ScheduleEntry where
  path : String
  publish_at : Int
deriving DecidableEq

/-- The datetime string codec used by the schedule store:
`publish_at.isoformat()` when saving (`ScheduleEntry.to_dict`) and
`utils.parse_iso_datetime` when loading (`ScheduleEntry.from_dict`).
Both are library functions outside this repository's logic, so they are
abstracted as an encoding with its round-trip contract: parsing the
isoformat output of a timezone-aware datetime returns the same instant
(the store only ever writes entries whose `publish_at` is aware). -/
structure TimeCodec where
  iso : Int → String
  parse : String → Option Int
  round_trip : ∀ t : Int, parse (iso t) = some t

/-- One JSON object of the persisted schedule list, i.e. the shape produced
by `ScheduleEntry.to_dict`; `none` models an absent key. -/
structure RawEntry where
  path : Option String
  publish_at : Option String
deriving DecidableEq

/-- The on-disk schedule file: absent, unreadable or non-JSON content, or a
JSON list of entry objects. -/
inductive ScheduleFile where
  | missing : ScheduleFile
  | corrupt : ScheduleFile
  | json : List RawEntry → ScheduleFile
deriving DecidableEq

/-- `ScheduleEntry.to_dict`: `{"path": self.path, "publish_at": self.publish_at.isoformat()}`. -/
def ScheduleEntry.to_dict (c : TimeCodec) (e : ScheduleEntry) : RawEntry :=
  { path := some e.path, publish_at := some (c.iso e.publish_at) }

/-- `ScheduleEntry.from_dict`: `cls(data["path"], parse_iso_datetime(data["publish_at"]))`.
A missing key (KeyError) or an unparsable timestamp (ValueError) raises,
modelled by `none`. -/
def ScheduleEntry.from_dict (c : TimeCodec) (r : RawEntry) : Option ScheduleEntry := do
  let p ← r.path
  let s ← r.publish_at
  let t ← c.parse s
  pure { path := p, publish_at := t }

/-- The list comprehension `[ScheduleEntry.from_dict(item) for item in data]`:
the first raising item aborts the whole comprehension. -/
def parse_entries (c : TimeCodec) : List RawEntry → Option (List ScheduleEntry)
  | [] => some []
  | r :: rs => do
    let e ← ScheduleEntry.from_dict c r
    let es ← parse_entries c rs
    pure (e :: es)

/-- `load_schedule`: returns `[]` for a missing file and for any exception
while reading or converting the JSON content. -/
def load_schedule (c : TimeCodec) : ScheduleFile → List ScheduleEntry
  | .missing => []
  | .corrupt => []
  | .json l => (parse_entries c l).getD []

/-- The sort key of `save_schedule`: `entries.sort(key=lambda e: e.publish_at)`.
Python `list.sort` is stable, which `List.mergeSort` models exactly. -/
def entry_le (a b : ScheduleEntry) : Bool := a.publish_at ≤ b.publish_at

/-- `save_schedule`: sorts the entries by publish time (stable) and writes
their `to_dict` forms as the new file content. -/
def save_schedule (c : TimeCodec) (entries : List ScheduleEntry) : ScheduleFile :=
  .json ((entries.mergeSort entry_le).map (ScheduleEntry.to_dict c))

/-- `add_to_schedule`: load, drop every entry with the same path, append the
new entry, save. -/
def add_to_schedule (c : TimeCodec) (f : ScheduleFile) (job_path : String)
    (publish_at : Int) : ScheduleFile :=
  let entries := load_schedule c f
  let entries := entries.filter (fun e => decide (e.path ≠ job_path))
  save_schedule c (entries ++ [{ path := job_path, publish_at := publish_at }])

/-- `remove_from_schedule`: load, drop every entry with the given path, save. -/
def remove_from_schedule (c : TimeCodec) (f : ScheduleFile) (job_path : String) :
    ScheduleFile :=
  let entries := load_schedule c f
  save_schedule c (entries.filter (fun e => decide (e.path ≠ job_path)))

/-- `pop_ready_jobs`: returns the paths of all due entries and the file
rewritten with only the not-yet-due remainder. -/
def pop_ready_jobs (c : TimeCodec) (f : ScheduleFile) (now : Int) :
    List String × ScheduleFile :=
  let entries := load_schedule c f
  let ready := (entries.filter (fun e => decide (e.publish_at ≤ now))).map ScheduleEntry.path
  let remaining := entries.filter (fun e => decide (now < e.publish_at))
  (ready, save_schedule c remaining)

/-- `next_scheduled_time`: the head of the loaded (sorted-on-save) list. -/
def next_scheduled_time (c : TimeCodec) (f : ScheduleFile) : Option Int :=
  ((load_schedule c f).head?).map ScheduleEntry.publish_at

/-! A concrete `TimeCodec` instance, used to evaluate the store on explicit
inputs: instants are encoded in unary, which keeps the round-trip proof
elementary.  Any injective codec works; nothing below depends on the shape
of the encoded strings. -/

def unary_iso : Int → String
  | .ofNat n => String.mk (List.replicate n 'a')
  | .negSucc n => String.mk ('-' :: List.replicate n 'a')

def unary_parse (s : String) : Option Int :=
  match s.data with
  | [] => some (Int.ofNat 0)
  | ch :: rest =>
      if ch = '-' then some (Int.negSucc rest.length)
      else some (Int.ofNat (rest.length + 1))

def unary_codec : TimeCodec where
  iso := unary_iso
  parse := unary_parse
  round_trip := by
    intro t
    cases t with
    | ofNat n =>
        cases n with
        | zero => rfl
        | succ m => simp [unary_iso, unary_parse, List.replicate_succ]
    | negSucc n => simp [unary_iso, unary_parse]

/-! ## Token store (`xposter/auth.py`)

`TokenSet` models the persisted token JSON object; `none` models an absent
key, `some ""` a present but empty string (both are Python-falsy, and the
code only tests these fields with `if not ...`).  `datetime.fromisoformat`
is a Python library function and is abstracted as a parameter
`fromIso : String → Option Int` (`none` models ValueError);
`datetime.isoformat` on the computed expiry is likewise abstracted as
`isoA : Int → String`.  The result of the `refresh_tokens` HTTP call is
passed in as an `Except` value, and `ensure_access_token` additionally
reports (second component) whether that call was made. -/

/-- `TOKEN_EXPIRY_SKEW = timedelta(seconds=60)`. -/
def TOKEN_EXPIRY_SKEW : Int := 60

structure TokenSet where
  access_token : Option String := none
  refresh_token : Option String := none
  expires_at : Option String := none
  expires_in : Option Int := none
deriving DecidableEq

/-- `tokens_expired`: false when `expires_at` is absent or empty or fails to
parse; otherwise true exactly when the parsed instant is at most 60 seconds
past `now`. -/
def tokens_expired (fromIso : String → Option Int) (now : Int)
    (tokens : TokenSet) : Bool :=
  match tokens.expires_at with
  | none => false
  | some s =>
      if s = "" then false
      else
        match fromIso s with
        | none => false
        | some v => decide (v ≤ now + TOKEN_EXPIRY_SKEW)

/-- `save_tokens`: merge the freshly returned fields over the existing ones
(a present key overwrites, an absent key is preserved), then, when the
merged set carries a truthy `expires_in`, recompute `expires_at` as
`now + expires_in` seconds.  Only the merged result matters here; the
write to the token file is the returned value itself. -/
def save_tokens (isoA : Int → String) (now : Int)
    (token_data existing : TokenSet) : TokenSet :=
  let merged : TokenSet :=
    { access_token := token_data.access_token.orElse fun _ => existing.access_token,
      refresh_token := token_data.refresh_token.orElse fun _ => existing.refresh_token,
      expires_at := token_data.expires_at.orElse fun _ => existing.expires_at,
      expires_in := token_data.expires_in.orElse fun _ => existing.expires_in }
  match merged.expires_in with
  | some n => if n ≠ 0 then { merged with expires_at := some (isoA (now + n)) } else merged
  | none => merged

/-- The tail of `ensure_access_token`: `tokens.get("access_token")` with the
`if not access_token: raise` guard. -/
def get_access (tokens : TokenSet) : Except String String :=
  match tokens.access_token with
  | none => .error "Access token missing. Run xposter auth login again."
  | some a =>
      if a = "" then .error "Access token missing. Run xposter auth login again."
      else .ok a

/-- `ensure_access_token`.  `stored` is the `load_tokens` result (`none`
models a missing token file, empty or unreadable content);
`refresh_result` is the outcome of the `refresh_tokens` HTTP call, consumed
only on the expired-with-refresh-token path.  The second component of the
result records whether that call was made. -/
def ensure_access_token (fromIso : String → Option Int) (isoA : Int → String)
    (now : Int) (stored : Option TokenSet)
    (refresh_result : Except String TokenSet) : Except String String × Bool :=
  match stored with
  | none => (.error "No tokens found. Run xposter auth login first.", false)
  | some tokens =>
      if tokens_expired fromIso now tokens then
        match tokens.refresh_token with
        | none =>
            (.error "Token expired and no refresh_token found. Run xposter auth login again.",
             false)
        | some rt =>
            if rt = "" then
              (.error "Token expired and no refresh_token found. Run xposter auth login again.",
               false)
            else
              match refresh_result with
              | .error e => (.error e, true)
              | .ok refreshed =>
                  (get_access (save_tokens isoA now refreshed tokens), true)
      else (get_access tokens, false)

/-! ## Publisher (`post_job` in `xposter/watcher.py`; the identical media
loop also appears in `post_next` in `xposter/cli.py`)

An upload response is a JSON object; the code reads
`response.get("media_id") or response.get("media_id_string") or
response.get("data", {}).get("id")` and fails the job when the chain is
falsy.  JSON leaf values are modelled by `JVal` (string or number) with
Python truthiness; `none` models an absent key.  The HTTP capability is
abstracted: the upload responses of the job's images are given as a list,
and the create-post outcome as an `Except` consumed only after every
upload yielded an identifier. -/

inductive JVal where
  | str : String → JVal
  | num : Int → JVal
deriving DecidableEq

def JVal.truthy : JVal → Bool
  | .str v => decide (v ≠ "")
  | .num v => decide (v ≠ 0)

/-- Python `str(...)` on a media identifier value. -/
def JVal.py_str : JVal → String
  | .str v => v
  | .num v => toString v

structure UploadResponse where
  media_id : Option JVal := none
  media_id_string : Option JVal := none
  data_id : Option JVal := none
deriving DecidableEq

def py_truthy : Option JVal → Bool
  | none => false
  | some v => v.truthy

/-- Python `a or b`: `a` when truthy, `b` otherwise. -/
def py_or (a b : Option JVal) : Option JVal :=
  if py_truthy a then a else b

/-- The media identifier taken from one upload response, `none` when the
`or`-chain is falsy (the `if not media_id: raise XApiError(...)` path). -/
def extract_media_id (r : UploadResponse) : Option String :=
  let v := py_or (py_or r.media_id r.media_id_string) r.data_id
  if py_truthy v then v.map JVal.py_str else none

/-- The upload loop of `post_job`: collect `str(media_id)` per image in
order; the first response without an identifier raises, aborting the job. -/
def collect_media_ids : List UploadResponse → Except String (List String)
  | [] => .ok []
  | r :: rs =>
      match extract_media_id r with
      | none => .error "Upload response missing media_id"
      | some mid =>
          match collect_media_ids rs with
          | .error e => .error e
          | .ok ids => .ok (mid :: ids)

inductive Dest where
  | sent : Dest
  | failed : Dest
deriving DecidableEq

structure PublishOutcome where
  dest : Dest
  create_post_called : Bool
  media_ids : List String
  error_message : Option String
deriving DecidableEq

/-- The publish phase of `post_job` after asset validation: run the upload
loop; on any `XApiError` move the job to the failed destination with an
error result, otherwise call create-post (outcome `tweet_result`) and move
to sent or failed accordingly. -/
def post_job_publish (responses : List UploadResponse)
    (tweet_result : Except String Unit) : PublishOutcome :=
  match collect_media_ids responses with
  | .error m =>
      { dest := .failed, create_post_called := false, media_ids := [],
        error_message := some m }
  | .ok ids =>
      match tweet_result with
      | .error m =>
          { dest := .failed, create_post_called := true, media_ids := ids,
            error_message := some m }
      | .ok _ =>
          { dest := .sent, create_post_called := true, media_ids := ids,
            error_message := none }

/-! ## Job model and queue scanner (`xposter/models.py`, `xposter/queue.py`)

The queue is a directory of date folders, each holding post folders with a
`post.json` and numbered image files.  The filesystem is modelled by
explicit values: a `DateFolder` carries its post folders and a `PostFolder`
its `post.json` state and its regular-file names, both listed in the
sorted order `sorted(iterdir())` produces.  A missing queue directory is
the empty folder list. -/

def MAX_TWEET_LENGTH : Nat := 280

def MAX_IMAGES : Nat := 4

def VALID_SLOTS : List String := ["morning", "day", "night"]

/-- A scheduled wall-clock datetime, the result of
`datetime.strptime(f"{date} {time}", "%Y-%m-%d %H:%M")`. -/
structure DTime where
  year : Nat
  month : Nat
  day : Nat
  hour : Nat
  minute : Nat
deriving DecidableEq

structure PostJob where
  folder : String
  text : String
  publish_at : String
  labels : List String
  images : List String
  date_str : String
  slot : String
  scheduled_dt : DTime
deriving DecidableEq

/-- `PostJob.validate`: collects every violated rule — text length, label
shape (empty list, or first label not a valid slot), image count. -/
def PostJob.validate (job : PostJob) : List String :=
  (if job.text.length > MAX_TWEET_LENGTH then ["text exceeds 280 characters"] else [])
  ++ (match job.labels with
      | [] => ["labels array is empty, first label must be slot (morning/day/night)"]
      | l0 :: _ =>
          if l0 ∈ VALID_SLOTS then []
          else ["first label must be one of morning/day/night, got " ++ l0])
  ++ (if job.images.length > MAX_IMAGES then ["more than 4 images found"] else [])

/-- `models.Config`: the timezone name and the `default_times` mapping from
slot to "HH:MM" (a JSON object, modelled as a partial map). -/
structure Config where
  timezone : String
  default_times : String → Option String

/-- `Config.get_time_for_slot`: `self.default_times.get(slot, "12:00")`. -/
def Config.get_time_for_slot (c : Config) (slot : String) : String :=
  (c.default_times slot).getD "12:00"

/-- The parsed content of a `post.json` object; `none` models an absent
key (the code reads each with `data.get(key, default)`). -/
structure RawPostData where
  text : Option String := none
  publish_at : Option String := none
  labels : Option (List String) := none
deriving DecidableEq

/-- The state of a post folder's `post.json` file. -/
inductive PostJsonState where
  | missing : PostJsonState
  | badJson : String → PostJsonState
  | parsed : RawPostData → PostJsonState
deriving DecidableEq

structure PostFolder where
  name : String
  is_dir : Bool
  post_json : PostJsonState
  files : List String
deriving DecidableEq

structure DateFolder where
  name : String
  is_dir : Bool
  posts : List PostFolder
deriving DecidableEq

/-- `DATE_PATTERN`: the anchored regex `\d{4}-\d{2}-\d{2}`. -/
def matches_date_folder (s : String) : Bool :=
  match s.data with
  | [a, b, c, d, '-', e, f, '-', g, h] =>
      a.isDigit && b.isDigit && c.isDigit && d.isDigit && e.isDigit && f.isDigit
        && g.isDigit && h.isDigit
  | _ => false

/-- The 16 filenames matched by `IMAGE_PATTERN` (`0[1-4]` dot one of the
four extensions), lower-cased. -/
def IMAGE_NAMES : List String :=
  ["01.png", "01.jpg", "01.jpeg", "01.webp",
   "02.png", "02.jpg", "02.jpeg", "02.webp",
   "03.png", "03.jpg", "03.jpeg", "03.webp",
   "04.png", "04.jpg", "04.jpeg", "04.webp"]

/-- Python `str.lower` restricted to ASCII, which is all `IMAGE_PATTERN`
(compiled with `re.IGNORECASE`) distinguishes. -/
def lower_str (s : String) : String := String.mk (s.data.map Char.toLower)

def matches_image (name : String) : Bool := decide (lower_str name ∈ IMAGE_NAMES)

/-- `discover_images`: keep the regular files of the (sorted) folder listing
whose names match `IMAGE_PATTERN`. -/
def discover_images (files : List String) : List String :=
  files.filter matches_image

def digit_val (ch : Char) : Nat := ch.toNat - 48

/-- Day count used by `datetime`'s validity check inside `strptime`. -/
def days_in_month (year month : Nat) : Nat :=
  if month = 2 then
    if year % 4 = 0 ∧ (year % 100 ≠ 0 ∨ year % 400 = 0) then 29 else 28
  else if month = 4 ∨ month = 6 ∨ month = 9 ∨ month = 11 then 30
  else 31

/-- `parse_scheduled_datetime`: `strptime(f"{date_str} {time_str}",
"%Y-%m-%d %H:%M")`; `none` models the ValueError on a format or range
violation.  (The embedding requires two-digit hours; `strptime` would also
accept one digit — no claim depends on that corner.) -/
def parse_scheduled_datetime (date_str time_str : String) : Option DTime :=
  match date_str.data, time_str.data with
  | [y1, y2, y3, y4, '-', m1, m2, '-', d1, d2], [h1, h2, ':', n1, n2] =>
      if y1.isDigit ∧ y2.isDigit ∧ y3.isDigit ∧ y4.isDigit ∧ m1.isDigit ∧ m2.isDigit
          ∧ d1.isDigit ∧ d2.isDigit ∧ h1.isDigit ∧ h2.isDigit ∧ n1.isDigit ∧ n2.isDigit then
        let y := ((digit_val y1 * 10 + digit_val y2) * 10 + digit_val y3) * 10 + digit_val y4
        let mo := digit_val m1 * 10 + digit_val m2
        let d := digit_val d1 * 10 + digit_val d2
        let h := digit_val h1 * 10 + digit_val h2
        let mi := digit_val n1 * 10 + digit_val n2
        if 1 ≤ mo ∧ mo ≤ 12 ∧ 1 ≤ d ∧ d ≤ days_in_month y mo ∧ h ≤ 23 ∧ mi ≤ 59
        then some { year := y, month := mo, day := d, hour := h, minute := mi }
        else none
      else none
  | _, _ => none

/-- The `PostJob(...)` construction inside `scan_queue` (queue.py lines
107-116), for a post folder whose `post.json` parsed to `data`. -/
def scanned_job (date_str : String) (p : PostFolder) (data : RawPostData)
    (slot : String) (dt : DTime) : PostJob :=
  { folder := p.name, text := data.text.getD "",
    publish_at := data.publish_at.getD "", labels := data.labels.getD [],
    images := discover_images p.files, date_str := date_str, slot := slot,
    scheduled_dt := dt }

/-- The body of `scan_queue`'s inner loop for one post folder: the pair of
jobs (zero or one) and errors it contributes. -/
def scan_post (date_str : String) (config : Config) (p : PostFolder) :
    List PostJob × List (String × String) :=
  if p.is_dir = false then ([], [])
  else
    match p.post_json with
    | .missing => ([], [(p.name, "missing post.json")])
    | .badJson msg => ([], [(p.name, "invalid JSON: " ++ msg)])
    | .parsed data =>
        let publish_at := data.publish_at.getD ""
        match data.labels.getD [] with
        | [] => ([], [(p.name, "labels array is empty")])
        | slot :: _ =>
            if slot ∈ VALID_SLOTS then
              let time_str := if publish_at ≠ "" then publish_at
                else config.get_time_for_slot slot
              match parse_scheduled_datetime date_str time_str with
              | none => ([], [(p.name, "invalid time format")])
              | some dt =>
                  let job := scanned_job date_str p data slot dt
                  if job.validate.isEmpty then ([job], [])
                  else ([], job.validate.map (fun err => (p.name, err)))
            else
              ([], [(p.name, "first label must be slot (morning/day/night), got " ++ slot)])

/-- `scan_queue`'s outer loop for one date folder. -/
def scan_date_folder (config : Config) (f : DateFolder) :
    List PostJob × List (String × String) :=
  if f.is_dir = false then ([], [])
  else if matches_date_folder f.name = false then
    ([], [(f.name, "invalid date folder name: " ++ f.name)])
  else
    (f.posts.flatMap (fun p => (scan_post f.name config p).1),
     f.posts.flatMap (fun p => (scan_post f.name config p).2))

/-- `scan_queue`: classify every candidate into jobs and (path, message)
errors; `folders` is the sorted listing of the queue directory (empty when
the directory does not exist). -/
def scan_queue (folders : List DateFolder) (config : Config) :
    List PostJob × List (String × String) :=
  (folders.flatMap (fun f => (scan_date_folder config f).1),
   folders.flatMap (fun f => (scan_date_folder config f).2))

/-! Concrete fixtures for evaluating the scanner on explicit inputs. -/

/-- A 281-character text. -/
def big_text : String := String.mk (List.replicate 281 'a')

/-- Five file names matching `IMAGE_PATTERN` (names 01-04 with a duplicate
numbered stem under a second extension). -/
def five_images : List String := ["01.png", "01.jpg", "02.png", "03.png", "04.png"]

def plain_config : Config := { timezone := "local", default_times := fun _ => none }

/-- A well-formed post folder. -/
def hello_post : PostFolder :=
  { name := "p1", is_dir := true,
    post_json := .parsed
      { text := some "hello", publish_at := some "09:00",
        labels := some ["morning"] },
    files := ["01.png"] }

def hello_queue : List DateFolder :=
  [{ name := "2024-01-01", is_dir := true, posts := [hello_post] }]

/-- A post folder violating three validation rules at once: 281-character
text, empty label list, five images. -/
def bad_post : PostFolder :=
  { name := "p1", is_dir := true,
    post_json := .parsed
      { text := some big_text, publish_at := some "09:00",
        labels := some [] },
    files := five_images }

def bad_queue : List DateFolder :=
  [{ name := "2024-01-01", is_dir := true, posts := [bad_post] }]

/-- The job `bad_post` would describe (the scan never builds it: it stops
at the empty label list). -/
def bad_job : PostJob :=
  { folder := "p1", text := big_text, publish_at := "09:00", labels := [],
    images := discover_images five_images, date_str := "2024-01-01", slot := "",
    scheduled_dt := { year := 2024, month := 1, day := 1, hour := 9, minute := 0 } }

/-- A post folder with a valid slot label but a 281-character text and five
images. -/
def long_post : PostFolder :=
  { name := "p2", is_dir := true,
    post_json := .parsed
      { text := some big_text, publish_at := some "09:00",
        labels := some ["morning"] },
    files := five_images }

/-- The job the scan derives from `hello_post`. -/
def hello_job : PostJob :=
  { folder := "p1", text := "hello", publish_at := "09:00", labels := ["morning"],
    images := ["01.png"], date_str := "2024-01-01", slot := "morning",
    scheduled_dt := { year := 2024, month := 1, day := 1, hour := 9, minute := 0 } }

/-! ## Supporting lemmas -/

theorem entry_le_trans (a b d : ScheduleEntry) :
    entry_le a b = true → entry_le b d = true → entry_le a d = true := by
  simp only [entry_le, decide_eq_true_eq]
  omega

theorem entry_le_total (a b : ScheduleEntry) :
    (entry_le a b || entry_le b a) = true := by
  simp only [entry_le, Bool.or_eq_true, decide_eq_true_eq]
  omega

theorem from_dict_to_dict (c : TimeCodec) (e : ScheduleEntry) :
    ScheduleEntry.from_dict c (ScheduleEntry.to_dict c e) = some e := by
  simp [ScheduleEntry.from_dict, ScheduleEntry.to_dict, c.round_trip]

theorem parse_entries_map_to_dict (c : TimeCodec) (l : List ScheduleEntry) :
    parse_entries c (l.map (ScheduleEntry.to_dict c)) = some l := by
  induction l with
  | nil => rfl
  | cons e es ih => simp [parse_entries, from_dict_to_dict, ih]

/-- Persist-then-reload produces exactly the stable-sorted entry list. -/
theorem load_save (c : TimeCodec) (l : List ScheduleEntry) :
    load_schedule c (save_schedule c l) = l.mergeSort entry_le := by
  simp [load_schedule, save_schedule, parse_entries_map_to_dict]

theorem countP_load_add_self (c : TimeCodec) (f : ScheduleFile) (p : String) (t : Int) :
    (load_schedule c (add_to_schedule c f p t)).countP (fun e => decide (e.path = p)) = 1 := by
  unfold add_to_schedule
  rw [load_save]
  rw [List.Perm.countP_eq _ (List.mergeSort_perm _ _)]
  rw [List.countP_append]
  have h0 : (List.filter (fun e => decide (e.path ≠ p)) (load_schedule c f)).countP
      (fun e => decide (e.path = p)) = 0 := by
    rw [List.countP_eq_zero]
    intro e he
    rw [List.mem_filter] at he
    simpa using he.2
  simp [h0]

theorem countP_load_add_other (c : TimeCodec) (f : ScheduleFile) (p q : String)
    (t : Int) (hq : q ≠ p) :
    (load_schedule c (add_to_schedule c f p t)).countP (fun e => decide (e.path = q))
      = (load_schedule c f).countP (fun e => decide (e.path = q)) := by
  unfold add_to_schedule
  rw [load_save]
  rw [List.Perm.countP_eq _ (List.mergeSort_perm _ _)]
  rw [List.countP_append, List.countP_filter]
  have h1 : (load_schedule c f).countP (fun a => decide (a.path = q) && decide (a.path ≠ p))
      = (load_schedule c f).countP (fun e => decide (e.path = q)) := by
    apply List.countP_congr
    intro a _
    by_cases ha : a.path = q
    · simp [ha, hq]
    · simp [ha]
  have h2 : (List.countP (fun e => decide (e.path = q))
      [({ path := p, publish_at := t } : ScheduleEntry)]) = 0 := by
    simp [List.countP_cons, Ne.symm hq]
  rw [h1, h2]
  omega

theorem countP_load_foldl_add (c : TimeCodec) (ops : List (String × Int))
    (f : ScheduleFile)
    (h : ∀ q, (load_schedule c f).countP (fun e => decide (e.path = q)) ≤ 1) :
    ∀ q, (load_schedule c
        (ops.foldl (fun g pt => add_to_schedule c g pt.1 pt.2) f)).countP
      (fun e => decide (e.path = q)) ≤ 1 := by
  induction ops generalizing f with
  | nil => simpa using h
  | cons op rest ih =>
      intro q
      simp only [List.foldl_cons]
      apply ih
      intro r
      by_cases hr : r = op.1
      · rw [hr, countP_load_add_self]
      · rw [countP_load_add_other c f op.1 r op.2 hr]
        exact h r

theorem collect_media_ids_error (responses : List UploadResponse)
    (hfail : ∃ q ∈ responses, extract_media_id q = none) :
    ∃ e, collect_media_ids responses = .error e := by
  induction responses with
  | nil => simp at hfail
  | cons r rs ih =>
      cases hr : extract_media_id r with
      | none =>
          exact ⟨"Upload response missing media_id", by simp [collect_media_ids, hr]⟩
      | some mid =>
          rcases hfail with ⟨q, hq, hqe⟩
          rcases List.mem_cons.mp hq with rfl | hqs
          · exact absurd hr (by simp [hqe])
          · rcases ih ⟨q, hqs, hqe⟩ with ⟨e, he⟩
            exact ⟨e, by simp [collect_media_ids, hr, he]⟩

theorem validate_nil_bounds (job : PostJob) (h : job.validate = []) :
    job.text.length ≤ MAX_TWEET_LENGTH ∧ job.images.length ≤ MAX_IMAGES := by
  unfold PostJob.validate at h
  constructor
  · by_cases ht : job.text.length > MAX_TWEET_LENGTH
    · simp [ht] at h
    · omega
  · by_cases hi : job.images.length > MAX_IMAGES
    · simp [hi] at h
    · omega

theorem scan_post_job_mem (date_str : String) (config : Config) (p : PostFolder)
    (job : PostJob) (hmem : job ∈ (scan_post date_str config p).1) :
    job.validate = [] := by
  simp only [scan_post] at hmem
  repeat' split at hmem
  all_goals simp_all [List.isEmpty_iff]

/-! ## The claims -/

/-- C1: `add_to_schedule` first removes every existing entry whose path
equals the given job path and then appends the new entry (persisting the
stable-sorted result); consequently the persisted schedule holds exactly
one entry for the added path, entries for other paths are untouched, and
any sequence of `add_to_schedule` calls preserves the invariant that the
schedule holds at most one entry per job path. -/
theorem add_to_schedule_upsert (c : TimeCodec) (f : ScheduleFile) (p : String)
    (t : Int) (ops : List (String × Int)) :
    load_schedule c (add_to_schedule c f p t)
        = (((load_schedule c f).filter (fun e : ScheduleEntry => decide (e.path ≠ p)))
            ++ [({ path := p, publish_at := t } : ScheduleEntry)]).mergeSort entry_le
    ∧ (load_schedule c (add_to_schedule c f p t)).countP
        (fun e => decide (e.path = p)) = 1
    ∧ (∀ q, q ≠ p →
        (load_schedule c (add_to_schedule c f p t)).countP
            (fun e => decide (e.path = q))
          = (load_schedule c f).countP (fun e => decide (e.path = q)))
    ∧ ((∀ q, (load_schedule c f).countP (fun e => decide (e.path = q)) ≤ 1) →
        ∀ q, (load_schedule c
            (ops.foldl (fun g pt => add_to_schedule c g pt.1 pt.2) f)).countP
          (fun e => decide (e.path = q)) ≤ 1) := by
  refine ⟨?_, countP_load_add_self c f p t, ?_, countP_load_foldl_add c ops f⟩
  · unfold add_to_schedule
    rw [load_save]
  · intro q hq
    exact countP_load_add_other c f p q t hq

/-- Evaluation of C1 on a concrete schedule: adding "a", "b", then "a"
again leaves exactly one entry for "a" and at most one for "b". -/
theorem add_to_schedule_upsert_witness :
    (load_schedule unary_codec (add_to_schedule unary_codec .missing "a" 1)).countP
        (fun e => decide (e.path = "a")) = 1
    ∧ (load_schedule unary_codec
        (([("a", 1), ("b", 2), ("a", 3)] : List (String × Int)).foldl
          (fun g pt => add_to_schedule unary_codec g pt.1 pt.2) .missing)).countP
        (fun e => decide (e.path = "a")) ≤ 1 :=
  ⟨(add_to_schedule_upsert unary_codec .missing "a" 1 []).2.1,
   (add_to_schedule_upsert unary_codec .missing "a" 1
      [("a", 1), ("b", 2), ("a", 3)]).2.2.2
     (by intro q; simp [load_schedule]) "a"⟩

/-- C3 counterexample: adding "b" at instant 5 and then "a" at the same
instant 5 persists the entries with path order ["b", "a"] (insertion
order), not the path-string order ["a", "b"] the claim requires for equal
publish timestamps: `save_schedule` sorts by the `publish_at` key alone
(stably), with no path tie-break. -/
theorem save_schedule_tie_counterexample :
    (load_schedule unary_codec
        (add_to_schedule unary_codec
          (add_to_schedule unary_codec .missing "b" 5) "a" 5)).map
        ScheduleEntry.path = ["b", "a"]
    ∧ (load_schedule unary_codec
        (add_to_schedule unary_codec
          (add_to_schedule unary_codec .missing "b" 5) "a" 5)).map
        ScheduleEntry.publish_at = [5, 5]
    ∧ (["b", "a"] : List String) ≠ ["a", "b"] := by
  refine ⟨?_, ?_, by decide⟩ <;>
    simp [add_to_schedule, load_schedule, save_schedule, parse_entries,
      ScheduleEntry.from_dict, ScheduleEntry.to_dict, unary_codec, unary_iso,
      unary_parse, List.mergeSort, entry_le]

/-- C3 amended: after each mutation (add, remove, pop) the persisted list is
sorted ascending by publish timestamp and is a permutation of the expected
updated entry set; entries with equal publish timestamps keep their prior
relative order (Python's sort is stable) — they are not reordered by
reference path. -/
theorem save_schedule_sorted (c : TimeCodec) (f : ScheduleFile) (p : String)
    (t now : Int) :
    List.Pairwise (fun a b => a.publish_at ≤ b.publish_at)
        (load_schedule c (add_to_schedule c f p t))
    ∧ (load_schedule c (add_to_schedule c f p t)).Perm
        (((load_schedule c f).filter (fun e : ScheduleEntry => decide (e.path ≠ p)))
          ++ [({ path := p, publish_at := t } : ScheduleEntry)])
    ∧ List.Pairwise (fun a b => a.publish_at ≤ b.publish_at)
        (load_schedule c (remove_from_schedule c f p))
    ∧ (load_schedule c (remove_from_schedule c f p)).Perm
        ((load_schedule c f).filter (fun e : ScheduleEntry => decide (e.path ≠ p)))
    ∧ List.Pairwise (fun a b => a.publish_at ≤ b.publish_at)
        (load_schedule c (pop_ready_jobs c f now).2)
    ∧ (load_schedule c (pop_ready_jobs c f now).2).Perm
        ((load_schedule c f).filter (fun e : ScheduleEntry => decide (now < e.publish_at))) := by
  have sorted : ∀ l : List ScheduleEntry,
      List.Pairwise (fun a b => a.publish_at ≤ b.publish_at)
        (load_schedule c (save_schedule c l)) := by
    intro l
    rw [load_save]
    have h := List.sorted_mergeSort entry_le_trans entry_le_total l
    exact h.imp (by intro a b hab; simpa [entry_le] using hab)
  have perm : ∀ l : List ScheduleEntry,
      (load_schedule c (save_schedule c l)).Perm l := by
    intro l
    rw [load_save]
    exact List.mergeSort_perm l entry_le
  exact ⟨sorted _, perm _, sorted _, perm _, sorted _, perm _⟩

/-- C4: persisting a list of entries and reloading it yields the
stable-sorted entries: the same references and timestamps (a permutation of
the input), in the store's sort order; an already-sorted list reloads
entirely unchanged. -/
theorem save_then_load_round_trip (c : TimeCodec) (l : List ScheduleEntry) :
    load_schedule c (save_schedule c l) = l.mergeSort entry_le
    ∧ (load_schedule c (save_schedule c l)).Perm l
    ∧ (List.Pairwise (fun a b => entry_le a b = true) l →
        load_schedule c (save_schedule c l) = l) := by
  refine ⟨load_save c l, ?_, ?_⟩
  · rw [load_save]
    exact List.mergeSort_perm l entry_le
  · intro hs
    rw [load_save]
    exact List.mergeSort_of_sorted hs

/-- Evaluation of C4 on a concrete sorted two-entry schedule. -/
theorem save_then_load_round_trip_witness :
    load_schedule unary_codec (save_schedule unary_codec
        [{ path := "a", publish_at := 1 }, { path := "b", publish_at := 2 }])
      = [{ path := "a", publish_at := 1 }, { path := "b", publish_at := 2 }] :=
  (save_then_load_round_trip unary_codec _).2.2 (by decide)

/-- C10: a missing, unreadable, or malformed schedule file loads as the
empty list (any entry whose object fails to convert makes the whole load
return `[]`), and the next save then rewrites the file from scratch: adding
one entry to such a file persists exactly that one entry. -/
theorem load_schedule_degrades_to_empty (c : TimeCodec) (p : String) (t : Int)
    (l : List RawEntry) (r : RawEntry) (f : ScheduleFile) :
    load_schedule c .missing = []
    ∧ load_schedule c .corrupt = []
    ∧ (r ∈ l → ScheduleEntry.from_dict c r = none →
        load_schedule c (.json l) = [])
    ∧ (load_schedule c f = [] →
        load_schedule c (add_to_schedule c f p t)
          = [{ path := p, publish_at := t }]) := by
  refine ⟨rfl, rfl, ?_, ?_⟩
  · intro hmem hfail
    have : parse_entries c l = none := by
      induction l with
      | nil => simp at hmem
      | cons x xs ih =>
          rcases List.mem_cons.mp hmem with hx | hxs
          · subst hx
            simp [parse_entries, hfail]
          · cases hx : ScheduleEntry.from_dict c x with
            | none => simp [parse_entries, hx]
            | some e => simp [parse_entries, hx, ih hxs]
    simp [load_schedule, this]
  · intro hempty
    unfold add_to_schedule
    rw [load_save, hempty]
    simp [List.mergeSort]

/-- Evaluation of C10: a file holding one entry object with no keys loads
as empty, and adding an entry to it persists exactly that entry. -/
theorem load_schedule_degrades_to_empty_witness :
    load_schedule unary_codec (.json [{ path := none, publish_at := none }]) = []
    ∧ load_schedule unary_codec
        (add_to_schedule unary_codec
          (.json [{ path := none, publish_at := none }]) "j" 7)
      = [{ path := "j", publish_at := 7 }] := by
  have h := load_schedule_degrades_to_empty unary_codec "j" 7
    [{ path := none, publish_at := none }] { path := none, publish_at := none }
    (.json [{ path := none, publish_at := none }])
  have h1 := h.2.2.1 (by decide) (by decide)
  exact ⟨h1, h.2.2.2 h1⟩

/-- C2: with a parsable `expires_at`, `tokens_expired` is true exactly when
the expiry instant is at most `now` + 60 seconds; a token expiring 61
seconds after `now` is returned as-is with no refresh attempt, while an
expired token (with a refresh token at hand) triggers the refresh call
before any token is returned. -/
theorem token_refresh_skew (fromIso : String → Option Int) (isoA : Int → String)
    (now v : Int) (s a rt : String) (tokens : TokenSet)
    (refresh_result : Except String TokenSet) :
    (tokens.expires_at = some s → s ≠ "" → fromIso s = some v →
      tokens_expired fromIso now tokens = decide (v ≤ now + 60))
    ∧ (tokens.expires_at = some s → fromIso s = some (now + 61) →
        tokens.access_token = some a → a ≠ "" →
        ensure_access_token fromIso isoA now (some tokens) refresh_result
          = (.ok a, false))
    ∧ (tokens_expired fromIso now tokens = true →
        tokens.refresh_token = some rt → rt ≠ "" →
        (ensure_access_token fromIso isoA now (some tokens) refresh_result).2
          = true) := by
  refine ⟨?_, ?_, ?_⟩
  · intro hat hne hparse
    simp [tokens_expired, hat, hne, hparse, TOKEN_EXPIRY_SKEW]
  · intro hat hparse hacc hane
    have hexp : tokens_expired fromIso now tokens = false := by
      by_cases hs : s = ""
      · simp [tokens_expired, hat, hs]
      · simp only [tokens_expired, hat, hs, if_false, hparse, TOKEN_EXPIRY_SKEW]
        simp
    simp [ensure_access_token, hexp, get_access, hacc, hane]
  · intro hexp hrt hrne
    simp only [ensure_access_token, hexp, if_true, hrt, hrne, if_false]
    cases refresh_result <;> rfl

/-- Evaluation of C2 at concrete inputs: an expiry 61 seconds out is used
as-is; one 60 seconds out triggers the refresh call. -/
theorem token_refresh_skew_witness :
    tokens_expired (fun _ => some 61) 0
        { access_token := some "tok", refresh_token := some "r",
          expires_at := some "e" } = false
    ∧ ensure_access_token (fun _ => some 61) (fun _ => "") 0
        (some { access_token := some "tok", refresh_token := some "r",
                expires_at := some "e" }) (.error "down")
      = (.ok "tok", false)
    ∧ (ensure_access_token (fun _ => some 60) (fun _ => "") 0
        (some { access_token := some "tok", refresh_token := some "r",
                expires_at := some "e" }) (.error "down")).2 = true := by
  refine ⟨?_, ?_, ?_⟩
  · have h := (token_refresh_skew (fun _ => some 61) (fun _ => "") 0 61 "e" "tok" "r"
      { access_token := some "tok", refresh_token := some "r",
        expires_at := some "e" } (.error "down")).1 rfl (by decide) rfl
    simpa using h
  · exact (token_refresh_skew (fun _ => some 61) (fun _ => "") 0 61 "e" "tok" "r"
      { access_token := some "tok", refresh_token := some "r",
        expires_at := some "e" } (.error "down")).2.1 rfl rfl rfl (by decide)
  · exact (token_refresh_skew (fun _ => some 60) (fun _ => "") 0 60 "e" "tok" "r"
      { access_token := some "tok", refresh_token := some "r",
        expires_at := some "e" } (.error "down")).2.2 (by decide) rfl (by decide)

/-- C8 counterexample: a non-empty stored token set that is not expired and
even carries a refresh token, yet `ensure_access_token` fails — because the
set lacks an `access_token` field.  None of the three claimed failure
situations (not authenticated / expired without refresh token / refresh
call failed) applies, refuting "fails in exactly three situations ... and
otherwise returns an access token". -/
theorem ensure_access_token_counterexample :
    tokens_expired (fun _ => none) 0
        { refresh_token := some "r" } = false
    ∧ ({ refresh_token := some "r" } : TokenSet).refresh_token = some "r"
    ∧ ensure_access_token (fun _ => none) (fun _ => "") 0
        (some { refresh_token := some "r" }) (.ok { access_token := some "x" })
      = (.error "Access token missing. Run xposter auth login again.", false) := by
  refine ⟨rfl, rfl, rfl⟩

/-- C8 amended: `ensure_access_token` fails in exactly four situations —
no stored tokens (missing, empty or unreadable token file), expired with
no (or empty) refresh token, a failing refresh call, and a final token set
whose `access_token` field is absent or empty; in every other case it
returns the access token. -/
theorem ensure_access_token_failures (fromIso : String → Option Int)
    (isoA : Int → String) (now : Int) (tokens refreshed : TokenSet)
    (refresh_result : Except String TokenSet) (e : String) (a : String) :
    (ensure_access_token fromIso isoA now none refresh_result
        = (.error "No tokens found. Run xposter auth login first.", false))
    ∧ (tokens_expired fromIso now tokens = true →
        (tokens.refresh_token = none ∨ tokens.refresh_token = some "") →
        ensure_access_token fromIso isoA now (some tokens) refresh_result
          = (.error "Token expired and no refresh_token found. Run xposter auth login again.",
             false))
    ∧ (∀ rt, tokens_expired fromIso now tokens = true →
        tokens.refresh_token = some rt → rt ≠ "" →
        refresh_result = .error e →
        ensure_access_token fromIso isoA now (some tokens) refresh_result
          = (.error e, true))
    ∧ (tokens_expired fromIso now tokens = false →
        (tokens.access_token = none ∨ tokens.access_token = some "") →
        (ensure_access_token fromIso isoA now (some tokens) refresh_result).1
          = .error "Access token missing. Run xposter auth login again.")
    ∧ (tokens_expired fromIso now tokens = false →
        tokens.access_token = some a → a ≠ "" →
        ensure_access_token fromIso isoA now (some tokens) refresh_result
          = (.ok a, false))
    ∧ (∀ rt, tokens_expired fromIso now tokens = true →
        tokens.refresh_token = some rt → rt ≠ "" →
        refresh_result = .ok refreshed →
        (save_tokens isoA now refreshed tokens).access_token = some a → a ≠ "" →
        ensure_access_token fromIso isoA now (some tokens) refresh_result
          = (.ok a, true)) := by
  refine ⟨rfl, ?_, ?_, ?_, ?_, ?_⟩
  · intro hexp hrt
    rcases hrt with h | h <;> simp [ensure_access_token, hexp, h]
  · intro rt hexp hrt hne hres
    simp [ensure_access_token, hexp, hrt, hne, hres]
  · intro hexp hacc
    rcases hacc with h | h <;> simp [ensure_access_token, hexp, get_access, h]
  · intro hexp hacc hane
    simp [ensure_access_token, hexp, get_access, hacc, hane]
  · intro rt hexp hrt hne hres hacc hane
    simp [ensure_access_token, hexp, hrt, hne, hres, get_access, hacc, hane]

/-- Evaluation of C8 (amended) at concrete inputs: the expired-no-refresh
failure and the fresh-token success path. -/
theorem ensure_access_token_failures_witness :
    ensure_access_token (fun _ => some 0) (fun _ => "") 0
        (some { access_token := some "tok", expires_at := some "e" }) (.error "x")
      = (.error "Token expired and no refresh_token found. Run xposter auth login again.",
         false)
    ∧ ensure_access_token (fun _ => some 100) (fun _ => "") 0
        (some { access_token := some "tok", expires_at := some "e" }) (.error "x")
      = (.ok "tok", false) :=
  ⟨(ensure_access_token_failures (fun _ => some 0) (fun _ => "") 0
      { access_token := some "tok", expires_at := some "e" } {} (.error "x") "x" "tok").2.1
      (by decide) (Or.inl rfl),
   (ensure_access_token_failures (fun _ => some 100) (fun _ => "") 0
      { access_token := some "tok", expires_at := some "e" } {} (.error "x") "x" "tok").2.2.2.2.1
      (by decide) rfl (by decide)⟩

/-- C9: when `expires_at` is absent, empty, or unparsable, `tokens_expired`
returns false, and `ensure_access_token` then returns the stored access
token unchanged with no refresh attempt, whatever the refresh call would
have produced. -/
theorem unparsable_expiry_not_expired (fromIso : String → Option Int)
    (isoA : Int → String) (now : Int) (tokens : TokenSet) (s a : String)
    (refresh_result : Except String TokenSet) :
    (tokens.expires_at = none → tokens_expired fromIso now tokens = false)
    ∧ (tokens.expires_at = some "" → tokens_expired fromIso now tokens = false)
    ∧ (tokens.expires_at = some s → fromIso s = none →
        tokens_expired fromIso now tokens = false)
    ∧ (tokens_expired fromIso now tokens = false →
        tokens.access_token = some a → a ≠ "" →
        ensure_access_token fromIso isoA now (some tokens) refresh_result
          = (.ok a, false)) := by
  refine ⟨?_, ?_, ?_, ?_⟩
  · intro h
    simp [tokens_expired, h]
  · intro h
    simp [tokens_expired, h]
  · intro h hp
    by_cases hs : s = ""
    · simp [tokens_expired, h, hs]
    · simp [tokens_expired, h, hs, hp]
  · intro hexp hacc hane
    simp [ensure_access_token, hexp, get_access, hacc, hane]

/-- Evaluation of C9 at a concrete token set with an unparsable expiry. -/
theorem unparsable_expiry_not_expired_witness :
    tokens_expired (fun _ => none) 0
        { access_token := some "tok", expires_at := some "garbage" } = false
    ∧ ensure_access_token (fun _ => none) (fun _ => "") 0
        (some { access_token := some "tok", expires_at := some "garbage" })
        (.error "down")
      = (.ok "tok", false) := by
  have h := unparsable_expiry_not_expired (fun _ => none) (fun _ => "") 0
    { access_token := some "tok", expires_at := some "garbage" } "garbage" "tok"
    (.error "down")
  have h1 := h.2.2.1 rfl rfl
  exact ⟨h1, h.2.2.2 h1 rfl (by decide)⟩

/-- C5: the identifier taken from an upload response is the first of
`media_id`, `media_id_string`, nested `data.id` that is present with a
truthy value — and none otherwise; if any image's response yields no
identifier, the job goes to the failed destination with an error result
and the create-post call is never made. -/
theorem media_id_extraction (r : UploadResponse)
    (responses : List UploadResponse) (tweet_result : Except String Unit) :
    (py_truthy r.media_id = true →
      extract_media_id r = r.media_id.map JVal.py_str)
    ∧ (py_truthy r.media_id = false → py_truthy r.media_id_string = true →
        extract_media_id r = r.media_id_string.map JVal.py_str)
    ∧ (py_truthy r.media_id = false → py_truthy r.media_id_string = false →
        py_truthy r.data_id = true →
        extract_media_id r = r.data_id.map JVal.py_str)
    ∧ (py_truthy r.media_id = false → py_truthy r.media_id_string = false →
        py_truthy r.data_id = false → extract_media_id r = none)
    ∧ ((∃ q ∈ responses, extract_media_id q = none) →
        (post_job_publish responses tweet_result).dest = .failed
        ∧ (post_job_publish responses tweet_result).create_post_called = false
        ∧ (post_job_publish responses tweet_result).error_message.isSome = true) := by
  refine ⟨?_, ?_, ?_, ?_, ?_⟩
  · intro h1
    simp [extract_media_id, py_or, h1]
  · intro h1 h2
    simp [extract_media_id, py_or, h1, h2]
  · intro h1 h2 h3
    simp [extract_media_id, py_or, h1, h2, h3]
  · intro h1 h2 h3
    simp [extract_media_id, py_or, h1, h2, h3]
  · intro hfail
    rcases collect_media_ids_error responses hfail with ⟨e, he⟩
    simp [post_job_publish, he]

/-- Evaluation of C5 at concrete responses: a numeric `media_id` wins over
the other fields; a response carrying only an empty-string `media_id`
yields no identifier and fails the whole two-image job before create-post. -/
theorem media_id_extraction_witness :
    extract_media_id
        { media_id := some (.num 7), media_id_string := some (.str "s") }
      = some "7"
    ∧ extract_media_id { media_id := some (.str "") } = none
    ∧ (post_job_publish
        [{ media_id := some (.num 7) }, { media_id := some (.str "") }]
        (.ok ())).dest = .failed
    ∧ (post_job_publish
        [{ media_id := some (.num 7) }, { media_id := some (.str "") }]
        (.ok ())).create_post_called = false := by
  have h1 := (media_id_extraction
    { media_id := some (.num 7), media_id_string := some (.str "s") } [] (.ok ())).1
    (by decide)
  have h2 := (media_id_extraction { media_id := some (.str "") } [] (.ok ())).2.2.2.1
    (by decide) (by decide) (by decide)
  have h3 := (media_id_extraction { media_id := some (.str "") }
    [{ media_id := some (.num 7) }, { media_id := some (.str "") }] (.ok ())).2.2.2.2
    ⟨{ media_id := some (.str "") }, by decide, h2⟩
  exact ⟨by simpa using h1, h2, h3.1, h3.2.1⟩

/-- C7: every job produced by a scan satisfies the text-length and
image-count bounds (violating jobs never reach the publisher); a job whose
text has 281 characters carries the text validation error, and one with 5
image references carries the image validation error. -/
theorem scan_jobs_within_bounds (folders : List DateFolder) (config : Config)
    (job : PostJob) :
    (job ∈ (scan_queue folders config).1 →
      job.text.length ≤ MAX_TWEET_LENGTH ∧ job.images.length ≤ MAX_IMAGES)
    ∧ (job.text.length = 281 → "text exceeds 280 characters" ∈ job.validate)
    ∧ (job.images.length = 5 → "more than 4 images found" ∈ job.validate) := by
  refine ⟨?_, ?_, ?_⟩
  · intro hmem
    simp only [scan_queue, List.mem_flatMap] at hmem
    obtain ⟨f, _, hf⟩ := hmem
    simp only [scan_date_folder] at hf
    split at hf
    · simp at hf
    · split at hf
      · simp at hf
      · simp only [List.mem_flatMap] at hf
        obtain ⟨p, _, hp⟩ := hf
        exact validate_nil_bounds job (scan_post_job_mem _ _ _ _ hp)
  · intro ht
    have hgt : job.text.length > MAX_TWEET_LENGTH := by
      rw [ht]
      decide
    simp [PostJob.validate, hgt]
  · intro hi
    have hgt : job.images.length > MAX_IMAGES := by
      rw [hi]
      decide
    simp [PostJob.validate, hgt]

/-- Evaluation of C7: the job scanned from a well-formed queue is within
bounds; a 281-character text and a 5-image list each yield their
validation error. -/
theorem scan_jobs_within_bounds_witness :
    (hello_job.text.length ≤ MAX_TWEET_LENGTH
      ∧ hello_job.images.length ≤ MAX_IMAGES)
    ∧ "text exceeds 280 characters" ∈ bad_job.validate
    ∧ "more than 4 images found" ∈ bad_job.validate :=
  ⟨(scan_jobs_within_bounds hello_queue plain_config hello_job).1 (by decide),
   (scan_jobs_within_bounds [] plain_config bad_job).2.1 (by decide),
   (scan_jobs_within_bounds [] plain_config bad_job).2.2 (by decide)⟩

/-- C6 counterexample: a post folder violating three validation rules at
once (281-character text, empty label list, five images) produces exactly
one scan error — "labels array is empty" — not all three: `scan_queue`
rejects a post with an empty or invalid label list before `PostJob.validate`
ever runs, so the other violations go unreported. -/
theorem scan_first_error_counterexample :
    (scan_queue bad_queue plain_config).2 = [("p1", "labels array is empty")]
    ∧ (scan_queue bad_queue plain_config).1 = []
    ∧ bad_job.validate.length = 3 := by
  decide

/-- C6 amended: once a post passes the scan's early label gate (a non-empty
label list whose first label is a valid slot) and its time parses, the scan
reports all of the job's validation errors together (`PostJob.validate`
collects text-length, label-shape and image-count violations without
short-circuiting); a post with an empty label list is instead rejected with
only that single error, its other violations unreported. -/
theorem scan_collects_validation_errors (date_str : String) (config : Config)
    (p : PostFolder) (data : RawPostData) (slot : String) (rest : List String)
    (dt : DTime) :
    (p.is_dir = true → p.post_json = .parsed data →
      data.labels.getD [] = slot :: rest → slot ∈ VALID_SLOTS →
      parse_scheduled_datetime date_str
          (if data.publish_at.getD "" ≠ "" then data.publish_at.getD ""
           else config.get_time_for_slot slot) = some dt →
      (scan_post date_str config p).2
          = (scanned_job date_str p data slot dt).validate.map
              (fun err => (p.name, err))
        ∧ ((scanned_job date_str p data slot dt).validate = [] →
            (scan_post date_str config p).1 = [scanned_job date_str p data slot dt]))
    ∧ (p.is_dir = true → p.post_json = .parsed data → data.labels.getD [] = [] →
        (scan_post date_str config p).2 = [(p.name, "labels array is empty")]
        ∧ (scan_post date_str config p).1 = []) := by
  constructor
  · intro hdir hjson hlab hslot hparse
    have hparse2 : parse_scheduled_datetime date_str
        (if data.publish_at.getD "" = "" then config.get_time_for_slot slot
         else data.publish_at.getD "") = some dt := by
      by_cases hpub : data.publish_at.getD "" = ""
      · simpa [hpub] using hparse
      · simpa [hpub] using hparse
    cases hE : (scanned_job date_str p data slot dt).validate with
    | nil =>
        refine ⟨?_, fun _ => ?_⟩ <;>
          simp [scan_post, hdir, hjson, hlab, hslot, hparse2, hE]
    | cons x xs =>
        refine ⟨?_, fun hcontra => ?_⟩
        · simp [scan_post, hdir, hjson, hlab, hslot, hparse2, hE]
        · exact absurd hcontra (by simp)
  · intro hdir hjson hlab
    constructor <;> simp [scan_post, hdir, hjson, hlab]

/-- Evaluation of C6 (amended): a post with a valid slot label but a
281-character text and five images gets both remaining violations
reported by the scan. -/
theorem scan_collects_validation_errors_witness :
    (scan_post "2024-01-01" plain_config long_post).2
      = [("p2", "text exceeds 280 characters"), ("p2", "more than 4 images found")] := by
  have h := (scan_collects_validation_errors "2024-01-01" plain_config long_post
    { text := some big_text, publish_at := some "09:00", labels := some ["morning"] }
    "morning" [] { year := 2024, month := 1, day := 1, hour := 9, minute := 0 }).1
    rfl rfl (by decide) (by decide) (by decide)
  rw [h.1]
  decide

end XPoster
